import Mathlib

/-!
Verification of the Virtual-Hairstyle-AI repository.

This file shallowly embeds the three source files of the repository:
* `types.ts` — the `AppState` enumeration, the `HaircutPreference` union and
  the declared shape of an analysis result;
* the service module (`analyzeFaceShape`, `generateHairstyleImage`) — the two
  remote-call wrappers with their validation and error policy;
* the application module (`App`) — the orchestrator state (`handleReset`,
  `handleAnalyzeClick`, `handlePreferenceSelect`) and the UI preference list.

External effects (the remote generative-AI calls and `JSON.parse`) are
modelled as explicit inputs: a function under verification receives the
outcome of the remote call (either a thrown JavaScript value or the returned
response object) and, where relevant, the decoding function, and computes the
same result the source computes from that outcome.  JavaScript exceptions are
modelled with `Except`; JavaScript truthiness of the inspected fields is
modelled explicitly where the source relies on it.
-/

/-- A JavaScript value that was thrown.  `isError` records whether the value
is an `Error` instance (`instanceof Error`); `message` is its `.message`
(meaningful only when `isError = true`). -/
structure JsThrown where
  isError : Bool
  message : String
deriving DecidableEq, Repr

/-- `new Error(msg)` — an `Error` instance with the given message. -/
def jsError (msg : String) : JsThrown :=
  { isError := true, message := msg }

instance {ε α : Type} [DecidableEq ε] [DecidableEq α] : DecidableEq (Except ε α) := fun x y =>
  match x, y with
  | .error a, .error b => decidable_of_iff (a = b) (by simp)
  | .ok a, .ok b => decidable_of_iff (a = b) (by simp)
  | .error _, .ok _ => isFalse (by simp)
  | .ok _, .error _ => isFalse (by simp)

/-- Outcome of an awaited remote service call: either the call threw
(transport/service failure) or it returned a response object of type `α`. -/
inductive ServiceCallResult (α : Type) where
  | threw (t : JsThrown)
  | returned (response : α)
deriving DecidableEq, Repr

/-- Whether `pat` is a leading segment of `l`. -/
def leadsList (pat l : List Char) : Bool :=
  match pat, l with
  | [], _ => true
  | _ :: _, [] => false
  | a :: as, b :: bs => a == b && leadsList as bs

/-- Whether `pat` occurs as a contiguous segment of `l`. -/
def occursIn (pat l : List Char) : Bool :=
  leadsList pat l ||
    match l with
    | [] => false
    | _ :: rest => occursIn pat rest

/-- JavaScript `s.includes(pat)`, computed over the character lists. -/
def hasSubstring (s pat : String) : Bool :=
  occursIn pat.data s.data

/-- Propositional substring containment: `pat` occurs in `s` with an explicit
decomposition. -/
def ContainsStr (s pat : String) : Prop :=
  ∃ a b, s = a ++ pat ++ b

/-- The characters JavaScript `trim` removes (the ASCII portion of the
WhiteSpace/LineTerminator productions; the source texts contain no exotic
Unicode spaces). -/
def jsIsSpace (c : Char) : Bool :=
  c == ' ' || c == '\t' || c == '\n' || c == '\r' || c == '\x0b' || c == '\x0c'

/-- JavaScript `s.trim()`: strip leading and trailing whitespace. -/
def jsTrim (s : String) : String :=
  ⟨((s.data.dropWhile jsIsSpace).reverse.dropWhile jsIsSpace).reverse⟩

/-- Lower-casing of one character as JavaScript `toLowerCase` acts on the
ASCII range (the only range compared against the literal `"null"`). -/
def jsLowerChar (c : Char) : Char :=
  if 65 ≤ c.toNat && c.toNat ≤ 90 then Char.ofNat (c.toNat + 32) else c

/-- JavaScript `s.toLowerCase()`. -/
def jsToLowerCase (s : String) : String :=
  ⟨s.data.map jsLowerChar⟩

/- ### types.ts -/

/-- `enum AppState` from types.ts. -/
inductive AppState where
  | INITIAL
  | IMAGE_UPLOADED
  | ANALYZING
  | ANALYZED
  | GENERATING
  | COMPLETE
  | ERROR
deriving DecidableEq, Repr

/-- `type HaircutPreference = "Rapikan" | "Sedang" | "Pendek"` from types.ts. -/
inductive HaircutPreference where
  | Rapikan
  | Sedang
  | Pendek
deriving DecidableEq, Repr

/-- The string literal a `HaircutPreference` union member stands for. -/
def HaircutPreference.toKey : HaircutPreference → String
  | .Rapikan => "Rapikan"
  | .Sedang => "Sedang"
  | .Pendek => "Pendek"

/-- `interface HairstyleSuggestion` from types.ts. -/
structure HairstyleSuggestion where
  name : String
  description : String
deriving DecidableEq, Repr

/-- `interface AnalysisResult` from types.ts, as declared: all three fields
present.  (`FaceShape` is a union of string literals; at runtime it is an
unvalidated string, so it is modelled as `String`.)  This is the shape the
application code assumes when it reads `analysisResult`. -/
structure AnalysisResult where
  faceShape : String
  originalHairLength : String
  hairstyles : List HairstyleSuggestion
deriving DecidableEq, Repr

/- ### Analysis client (service module, `analyzeFaceShape`) -/

/-- The value `JSON.parse` actually produced in `analyzeFaceShape`.  The
source casts it to `AnalysisResult` without a checked decoder, so any of the
declared fields may be absent at runtime; `Option` records presence.  A
present-but-non-string / present-but-non-array field is beyond the declared
contract and is not modelled. -/
structure DecodedAnalysis where
  faceShape : Option String
  originalHairLength : Option String
  hairstyles : Option (List HairstyleSuggestion)
deriving DecidableEq, Repr

/-- Result of evaluating `JSON.parse(jsonString)`: the call can throw a
`SyntaxError`, produce `null` or a primitive (anything failing the source's
`!result || typeof result !== 'object'` test), or produce an object. -/
inductive ParseResult where
  | threw (t : JsThrown)
  | nonObjectOrNull
  | object (result : DecodedAnalysis)
deriving DecidableEq, Repr

/-- The response object of the analysis call, reduced to the one field the
source reads: `response.text`, which the SDK types as possibly `undefined`. -/
structure AnalyzeResponse where
  text : Option String
deriving DecidableEq, Repr

/-- Message of the empty-response validation error
(`"AI mengembalikan respons kosong. Coba foto lain."`). -/
def emptyResponseMsg : String :=
  "AI mengembalikan respons kosong. Coba foto lain."

/-- Message of the malformed-response validation error
(`"AI mengembalikan data dalam format yang tidak terduga. Silakan coba lagi."`). -/
def malformedResponseMsg : String :=
  "AI mengembalikan data dalam format yang tidak terduga. Silakan coba lagi."

/-- Message of the generic analysis failure
(`"Gagal menganalisis gambar. Silakan coba foto lain."`). -/
def analysisFailedMsg : String :=
  "Gagal menganalisis gambar. Silakan coba foto lain."

/-- JavaScript truthiness test `!o` for an optional string field: falsy when
the field is absent (`undefined`/`null`) or the empty string. -/
def jsFalsyStr (o : Option String) : Bool :=
  match o with
  | none => true
  | some s => s == ""

/-- Body of `analyzeFaceShape`'s `try` block, from `response.text` on: the
empty/null-literal check, `JSON.parse`, and the structural validation
`!result || typeof result !== 'object' || !result.faceShape ||
!result.hairstyles`.  (An array is `typeof 'object'` and truthy, and reading
`.faceShape` on it yields `undefined`; so that case is covered by an `object`
with absent fields.)  `parse` stands for `JSON.parse`. -/
def analyzeFaceShapeBody (svc : ServiceCallResult AnalyzeResponse)
    (parse : String → ParseResult) : Except JsThrown DecodedAnalysis :=
  match svc with
  | .threw t => .error t
  | .returned response =>
    match response.text with
    | none => .error (jsError emptyResponseMsg)
    | some jsonString =>
      if jsonString = "" ∨ jsTrim jsonString = "" ∨ jsToLowerCase (jsTrim jsonString) = "null" then
        .error (jsError emptyResponseMsg)
      else
        match parse jsonString with
        | .threw t => .error t
        | .nonObjectOrNull => .error (jsError malformedResponseMsg)
        | .object result =>
          if jsFalsyStr result.faceShape || result.hairstyles.isNone then
            .error (jsError malformedResponseMsg)
          else
            .ok result

/-- `analyzeFaceShape`: the `try` body followed by the `catch` block, which
re-throws the caught value when it is an `Error` whose message contains
`"AI mengembalikan"` and otherwise throws the generic analysis failure. -/
def analyzeFaceShape (svc : ServiceCallResult AnalyzeResponse)
    (parse : String → ParseResult) : Except JsThrown DecodedAnalysis :=
  match analyzeFaceShapeBody svc parse with
  | .ok result => .ok result
  | .error e =>
    if e.isError && hasSubstring e.message "AI mengembalikan" then
      .error e
    else
      .error (jsError analysisFailedMsg)

/- ### Generation client (service module, `generateHairstyleImage`) -/

/-- The `preferenceDefinitions` object literal of `generateHairstyleImage`:
three cut-severity descriptions keyed by preference string.  (Note the keys:
`"Sedang"`, `"Pendek"`, `"Super Pendek"` — there is no `"Rapikan"` entry.) -/
def preferenceDefinitions : List (String × String) :=
  [("Sedang", "Potongan sedang yang terlihat. Kurangi panjang rambut secara signifikan, tetapi jangan membuatnya menjadi potongan yang sangat pendek. Perubahannya harus jelas dan nyata."),
   ("Pendek", "Transformasi besar menjadi potongan pendek. Ubah gaya rambut menjadi versi yang jauh lebih pendek dari aslinya (misalnya, dari panjang menjadi bob, atau dari sebahu menjadi pixie)."),
   ("Super Pendek", "Transformasi ekstrem menjadi potongan yang sangat pendek dan berani. Ini adalah opsi terpendek. Pikirkan potongan pixie, undercut, atau bob yang sangat pendek, terlepas dari panjang aslinya. Perubahannya harus sangat dramatis.")]

/-- JavaScript property access `o[k]` on an object literal modelled as an
association list: the value at the first matching key, absent otherwise. -/
def jsIndexStr (o : List (String × String)) (k : String) : Option String :=
  (o.find? (fun e => e.1 == k)).map (fun e => e.2)

/-- Template-literal interpolation `${x}` of a possibly-undefined value:
JavaScript renders `undefined` as the string `"undefined"`. -/
def jsInterp (o : Option String) : String :=
  o.getD "undefined"

/-- The generation prompt of `generateHairstyleImage`, with the three
template interpolations: the preference name, the severity definition looked
up in `preferenceDefinitions`, and the hairstyle name.  (`\x27` is the ASCII
apostrophe used as the quote character in the source template.) -/
def buildGenerationPrompt (hairstyleName haircutPreference : String) : String :=
  "Anda adalah editor foto ahli dengan satu tugas spesifik: memodifikasi rambut seseorang dalam foto agar lebih pendek, sesuai dengan tingkat potongan yang diminta.\n\n**PERINTAH UTAMA (TIDAK BISA DITAWAR):**\nAnda HARUS mengubah rambut di foto agar secara visual cocok dengan deskripsi tingkat potongan ini:\n- **Tingkat Potongan:** \x27"
    ++ haircutPreference
    ++ "\x27\n- **Definisi:** \x27"
    ++ jsInterp (jsIndexStr preferenceDefinitions haircutPreference)
    ++ "\x27\nIni adalah tujuan utama Anda. Panjang rambut di hasil akhir WAJIB sesuai dengan definisi ini.\n\n**INSPIRASI GAYA (SEKUNDER):**\nSetelah Anda memastikan panjangnya benar, gunakan nama gaya rambut berikut sebagai INSPIRASI untuk tekstur dan bentuk potongan:\n- **Inspirasi Gaya:** \x27"
    ++ hairstyleName
    ++ "\x27\n\n**CONTOH LOGIKA & ATURAN TEGAS:**\n- JIKA Tingkat Potongan adalah \x27Pendek\x27 DAN Inspirasi adalah \x27Gelombang Pantai Panjang\x27, maka hasil Anda HARUS berupa gaya rambut PENDEK (seperti bob atau pixie) yang memiliki tekstur bergelombang. JANGAN membuat rambut panjang.\n- JIKA Tingkat Potongan adalah \x27Sedang\x27 DAN Inspirasi adalah \x27Potongan Pixie\x27, dan rambut asli sudah pendek, maka Anda harus memotongnya sedikit lebih pendek lagi sesuai definisi \x27Sedang\x27. JANGAN memanjangkannya.\n- Prioritaskan selalu Tingkat Potongan di atas Inspirasi Gaya.\n\n**LARANGAN:**\n- JANGAN mengubah apa pun selain rambut (wajah, ekspresi, pakaian, latar belakang, pencahayaan harus identik).\n- JANGAN mengabaikan \x27Tingkat Potongan\x27. Ini adalah kegagalan tugas.\n- JANGAN membuat hasil yang terlihat seperti gambar AI; harus fotorealistis.\n\nTerapkan perubahan ini sekarang pada gambar yang diberikan."

/-- An inline image payload of a response part (`part.inlineData`). -/
structure InlineData where
  data : String
  mimeType : String
deriving DecidableEq, Repr

/-- One content part of a generation response: it may carry an inline image
payload and/or a text payload (the source tests `part.inlineData` first and
`part.text` second). -/
structure ResponsePart where
  inlineData : Option InlineData
  text : Option String
deriving DecidableEq, Repr

/-- `candidate.content` — the parts container of one candidate. -/
structure Content where
  parts : List ResponsePart
deriving DecidableEq, Repr

/-- One candidate of a generation response. -/
structure Candidate where
  content : Content
deriving DecidableEq, Repr

/-- `response.promptFeedback`, reduced to the field the source reads. -/
structure PromptFeedback where
  blockReason : Option String
deriving DecidableEq, Repr

/-- The generation response object, reduced to the fields the source reads:
`promptFeedback` (optional) and `candidates` (optional list). -/
structure GenerateContentResponse where
  promptFeedback : Option PromptFeedback
  candidates : Option (List Candidate)
deriving DecidableEq, Repr

/-- The success value of `generateHairstyleImage`: `{ imageUrl, text }`. -/
structure GeneratedResult where
  imageUrl : String
  text : String
deriving DecidableEq, Repr

/-- Message of the blocked-request error, carrying the block reason:
`Gagal membuat gambar karena permintaan diblokir: <reason>. Coba gaya atau
foto lain.` -/
def blockedMessage (reason : String) : String :=
  "Gagal membuat gambar karena permintaan diblokir: " ++ reason ++ ". Coba gaya atau foto lain."

/-- Message of the no-image-produced error
(`"AI tidak dapat menghasilkan gambar untuk gaya rambut ini. Silakan coba yang lain."`). -/
def noImageProducedMsg : String :=
  "AI tidak dapat menghasilkan gambar untuk gaya rambut ini. Silakan coba yang lain."

/-- Message of the generic generation failure thrown for non-`Error` values
(`"Gagal menghasilkan gaya rambut baru. Silakan coba lagi atau pilih gaya yang berbeda."`). -/
def generateFailedMsg : String :=
  "Gagal menghasilkan gaya rambut baru. Silakan coba lagi atau pilih gaya yang berbeda."

/-- The default caption `generatedText` is initialised to
(`"Ini dia tampilan baru Anda!"`). -/
def defaultGeneratedText : String :=
  "Ini dia tampilan baru Anda!"

/-- The data URL built from an inline image payload:
`data:<mimeType>;base64,<data>`. -/
def mkDataUrl (d : InlineData) : String :=
  "data:" ++ d.mimeType ++ ";base64," ++ d.data

/-- One iteration of the part-scanning loop, acting on the accumulator
`(generatedImageUrl, generatedText)`: an inline-image part overwrites the
URL; otherwise a truthy (non-empty) text part overwrites the caption. -/
def scanPart (acc : String × String) (part : ResponsePart) : String × String :=
  match part.inlineData with
  | some d => (mkDataUrl d, acc.2)
  | none =>
    match part.text with
    | some t => if t = "" then acc else (acc.1, t)
    | none => acc

/-- The whole scanning loop over a list of parts, started from the empty URL
and the default caption. -/
def scanParts (parts : List ResponsePart) : String × String :=
  parts.foldl scanPart ("", defaultGeneratedText)

/-- `response.promptFeedback?.blockReason` — optional chaining. -/
def blockReasonOf (response : GenerateContentResponse) : Option String :=
  match response.promptFeedback with
  | some pf => pf.blockReason
  | none => none

/-- The parts the source iterates over: `response.candidates[0].content.parts`
when `response.candidates && response.candidates.length > 0`, nothing
otherwise. -/
def firstCandidateParts (response : GenerateContentResponse) : List ResponsePart :=
  match response.candidates with
  | some (c :: _) => c.content.parts
  | _ => []

/-- The non-blocked tail of `generateHairstyleImage`'s `try` block: scan the
first candidate's parts, then either throw the no-image error (when the URL
is still the empty string) or return `{ imageUrl, text }`. -/
def extractImageAndText (response : GenerateContentResponse) : Except JsThrown GeneratedResult :=
  if (scanParts (firstCandidateParts response)).1 = "" then
    .error (jsError noImageProducedMsg)
  else
    .ok { imageUrl := (scanParts (firstCandidateParts response)).1,
          text := (scanParts (firstCandidateParts response)).2 }

/-- Body of `generateHairstyleImage`'s `try` block: a thrown service call
propagates; a returned response is first checked for
`promptFeedback?.blockReason` (a truthy reason throws the blocked error) and
then scanned for an image. -/
def generateHairstyleImageBody (svc : ServiceCallResult GenerateContentResponse) :
    Except JsThrown GeneratedResult :=
  match svc with
  | .threw t => .error t
  | .returned response =>
    match blockReasonOf response with
    | some reason =>
      if reason = "" then extractImageAndText response
      else .error (jsError (blockedMessage reason))
    | none => extractImageAndText response

/-- `generateHairstyleImage`: the `try` body followed by the `catch` block,
which re-throws `Error` instances as-is and wraps any other thrown value into
the generic generation failure.  The image, hairstyle-name, hair-length and
preference parameters of the source function only determine the request
prompt (see `buildGenerationPrompt`); the embedding receives the service call
outcome directly. -/
def generateHairstyleImage (svc : ServiceCallResult GenerateContentResponse) :
    Except JsThrown GeneratedResult :=
  match generateHairstyleImageBody svc with
  | .ok result => .ok result
  | .error e =>
    if e.isError then .error e
    else .error (jsError generateFailedMsg)

/- ### Application module (`App`) -/

/-- One entry of the UI cut-preference list `haircutPreferences`.  The source
declares `value: HaircutPreference`, but the actual literals include
`"Super Pendek"`, which is not a member of the declared union, so the runtime
value is modelled as the string it is. -/
structure PreferenceOption where
  value : String
  label : String
deriving DecidableEq, Repr

/-- The `haircutPreferences` array offered by the UI selection list. -/
def haircutPreferences : List PreferenceOption :=
  [⟨"Sedang", "Potongan Sedang"⟩,
   ⟨"Pendek", "Potongan Pendek"⟩,
   ⟨"Super Pendek", "Potongan Super Pendek"⟩]

/-- The `originalImage` state value: `{ url, base64, mimeType }`. -/
structure OriginalImage where
  url : String
  base64 : String
  mimeType : String
deriving DecidableEq, Repr

/-- One slot of `GeneratedImageState`: `{ url, error, loading }` for one
hairstyle name.  `none` models `null`. -/
structure GeneratedImageEntry where
  url : Option String
  error : Option String
  loading : Bool
deriving DecidableEq, Repr

/-- JavaScript object update `{ ...prev, [k]: v }` on an object modelled as
an association list: an existing key keeps its position and gets the new
value, a new key is appended. -/
def jsObjectSet (m : List (String × GeneratedImageEntry)) (k : String)
    (v : GeneratedImageEntry) : List (String × GeneratedImageEntry) :=
  if m.any (fun e => e.1 == k) then
    m.map (fun e => if e.1 == k then (k, v) else e)
  else
    m ++ [(k, v)]

/-- The arguments of one `generateHairstyleImage` call issued by
`handlePreferenceSelect`. -/
structure GenerationCall where
  base64 : String
  mimeType : String
  hairstyleName : String
  originalHairLength : String
  haircutPreference : String
deriving DecidableEq, Repr

/-- The component state of `App` that the orchestration claims concern
(`appState`, `originalImage`, `analysisResult`, `haircutPreference`,
`generatedImages`, `error`), together with `issued`, the log of generation
calls issued so far — the model's record of the `generationPromises` created
by each `handlePreferenceSelect` invocation.  Promises cannot be cancelled,
so `issued` is never shrunk by a reset. -/
structure OrchState where
  appState : AppState
  originalImage : Option OriginalImage
  analysisResult : Option AnalysisResult
  haircutPreference : Option String
  generatedImages : List (String × GeneratedImageEntry)
  error : Option String
  issued : List GenerationCall
deriving DecidableEq, Repr

/-- `handleReset`: back to the initial state, discarding image, analysis,
preference, outcome mapping and error message.  (The file-input clearing has
no model counterpart; the in-flight promises of `issued` are not — and cannot
be — revoked.) -/
def handleReset (st : OrchState) : OrchState :=
  { st with
    appState := .INITIAL,
    originalImage := none,
    analysisResult := none,
    haircutPreference := none,
    generatedImages := [],
    error := none }

/-- `initialImageStates`: one pending `{ url: null, error: null,
loading: true }` slot per suggested hairstyle, built by successive object
insertion as the source's `forEach` does. -/
def initialImageStates (styles : List HairstyleSuggestion) :
    List (String × GeneratedImageEntry) :=
  styles.foldl (fun m style => jsObjectSet m style.name ⟨none, none, true⟩) []

/-- The `generationPromises` fan-out of `handlePreferenceSelect`: one
generation call per suggested hairstyle, each carrying the common image
payload and media type, that hairstyle's name, the analysis's
`originalHairLength`, and the selected preference. -/
def generationCalls (originalImage : OriginalImage) (analysisResult : AnalysisResult)
    (preference : String) : List GenerationCall :=
  analysisResult.hairstyles.map (fun style =>
    { base64 := originalImage.base64,
      mimeType := originalImage.mimeType,
      hairstyleName := style.name,
      originalHairLength := analysisResult.originalHairLength,
      haircutPreference := preference })

/-- The synchronous phase of `handlePreferenceSelect`: the guard
`if (!originalImage || !analysisResult || appState === AppState.GENERATING)
return`, then setting the preference, entering `GENERATING`, installing the
pending outcome mapping, and issuing the generation calls. -/
def handlePreferenceSelectStart (st : OrchState) (preference : String) : OrchState :=
  match st.originalImage, st.analysisResult with
  | some originalImage, some analysisResult =>
    if st.appState = AppState.GENERATING then st
    else
      { st with
        haircutPreference := some preference,
        appState := AppState.GENERATING,
        generatedImages := initialImageStates analysisResult.hairstyles,
        issued := st.issued ++ generationCalls originalImage analysisResult preference }
  | _, _ => st

/-- The settle handler attached to each generation call (`.then` on success,
`.catch` on failure): a functional update of whatever `generatedImages`
mapping is current at settle time.  On failure the recorded message is
`error.message || 'Gagal membuat gambar.'`, the empty string standing for a
falsy `message`. -/
def applySettled (st : OrchState) (name : String) (res : Except String String) : OrchState :=
  match res with
  | .ok imageUrl =>
    { st with generatedImages := jsObjectSet st.generatedImages name ⟨some imageUrl, none, false⟩ }
  | .error message =>
    let entry : GeneratedImageEntry :=
      ⟨none, some (if message = "" then "Gagal membuat gambar." else message), false⟩
    { st with generatedImages := jsObjectSet st.generatedImages name entry }

/-- An observable step of the orchestrator: a user action (`select`,
`reset`), the settling of one in-flight generation call (`settle`, carrying
the hairstyle name of the slot its closure captured and its outcome), or the
resumption of a `handlePreferenceSelect` invocation after its
`Promise.allSettled` barrier (`finish`, which unconditionally sets
`COMPLETE`). -/
inductive OrchEvent where
  | select (preference : String)
  | settle (name : String) (res : Except String String)
  | finish
  | reset
deriving DecidableEq, Repr

/-- Apply one event to the component state. -/
def orchStep (st : OrchState) (ev : OrchEvent) : OrchState :=
  match ev with
  | .select preference => handlePreferenceSelectStart st preference
  | .settle name res => applySettled st name res
  | .finish => { st with appState := AppState.COMPLETE }
  | .reset => handleReset st

/-- Run a sequence of orchestrator events from a starting state. -/
def runTrace (st : OrchState) (events : List OrchEvent) : OrchState :=
  events.foldl orchStep st

/-- The name of the `i`-th suggested hairstyle (empty if out of range). -/
def hairstyleNameAt (analysisResult : AnalysisResult) (i : Nat) : String :=
  match analysisResult.hairstyles.get? i with
  | some style => style.name
  | none => ""

/-! ## Helper lemmas -/

theorem jsError_isError (msg : String) : (jsError msg).isError = true := rfl

/-- A part without an inline payload leaves the accumulated image URL
unchanged. -/
theorem scanPart_fst_none (acc : String × String) (part : ResponsePart)
    (h : part.inlineData = none) : (scanPart acc part).1 = acc.1 := by
  obtain ⟨idata, text⟩ := part
  simp only [scanPart] at *
  rw [h]
  cases text with
  | none => rfl
  | some t =>
    dsimp only
    split <;> rfl

/-- A part with an inline payload sets the accumulated image URL to that
payload's data URL. -/
theorem scanPart_fst_some (acc : String × String) (part : ResponsePart) (d : InlineData)
    (h : part.inlineData = some d) : (scanPart acc part).1 = mkDataUrl d := by
  obtain ⟨idata, text⟩ := part
  simp only [scanPart] at *
  rw [h]

/-- The image-URL component of the scanning loop is the data URL of the last
inline-image part, or the starting accumulator when there is none. -/
theorem foldl_scanPart_fst (parts : List ResponsePart) :
    ∀ acc : String × String,
      (parts.foldl scanPart acc).1 =
        (((parts.filterMap ResponsePart.inlineData).getLast?).map mkDataUrl).getD acc.1 := by
  induction parts with
  | nil => intro acc; rfl
  | cons p rest ih =>
    intro acc
    rw [List.foldl_cons, ih]
    cases hp : p.inlineData with
    | none =>
      rw [List.filterMap_cons_none hp, scanPart_fst_none acc p hp]
    | some d =>
      rw [List.filterMap_cons_some hp, scanPart_fst_some acc p d hp]
      cases hL : (rest.filterMap ResponsePart.inlineData) with
      | nil => rfl
      | cons e L =>
        rw [List.getLast?_cons_cons]
        have hsome : ((e :: L).getLast?).isSome = true := by
          rw [List.getLast?_isSome]
          exact List.cons_ne_nil e L
        obtain ⟨last, hlast⟩ := Option.isSome_iff_exists.mp hsome
        rw [hlast]
        rfl

/-- A data URL is never the empty string. -/
theorem mkDataUrl_ne_empty (d : InlineData) : mkDataUrl d ≠ "" := by
  intro h
  have hlen := congrArg String.length h
  rw [mkDataUrl, String.length_append, String.length_append,
    String.length_append] at hlen
  have h5 : ("data:").length = 5 := rfl
  have h8 : (";base64,").length = 8 := rfl
  have h0 : ("").length = 0 := rfl
  omega

/-- The image-URL component of `scanParts`, in closed form. -/
theorem scanParts_fst (parts : List ResponsePart) :
    (scanParts parts).1 =
      (((parts.filterMap ResponsePart.inlineData).getLast?).map mkDataUrl).getD "" :=
  foldl_scanPart_fst parts _

/-- `extractImageAndText` in terms of the last inline-image part of the
scanned parts. -/
theorem extractImageAndText_eq (response : GenerateContentResponse) :
    extractImageAndText response =
      match ((firstCandidateParts response).filterMap ResponsePart.inlineData).getLast? with
      | none => .error (jsError noImageProducedMsg)
      | some d => .ok ⟨mkDataUrl d, (scanParts (firstCandidateParts response)).2⟩ := by
  have hfst := scanParts_fst (firstCandidateParts response)
  cases hL : ((firstCandidateParts response).filterMap ResponsePart.inlineData).getLast? with
  | none =>
    rw [hL] at hfst
    have hempty : (scanParts (firstCandidateParts response)).1 = "" := hfst.trans rfl
    unfold extractImageAndText
    rw [if_pos hempty]
  | some d =>
    rw [hL] at hfst
    have hurl : (scanParts (firstCandidateParts response)).1 = mkDataUrl d := hfst.trans rfl
    unfold extractImageAndText
    rw [hurl, if_neg (mkDataUrl_ne_empty d)]

/-- On a non-blocked response, `generateHairstyleImage` coincides with the
image-extraction phase: its only two outcomes there are the extraction
result itself (the no-image error is an `Error` instance, so the `catch`
re-throws it unchanged). -/
theorem generate_eq_extract (response : GenerateContentResponse)
    (hnb : blockReasonOf response = none ∨ blockReasonOf response = some "") :
    generateHairstyleImage (.returned response) = extractImageAndText response := by
  have hbody : generateHairstyleImageBody (.returned response) = extractImageAndText response := by
    unfold generateHairstyleImageBody
    dsimp only
    rcases hnb with h | h
    · rw [h]
    · rw [h]
      dsimp only
      rw [if_pos rfl]
  unfold generateHairstyleImage
  rw [hbody, extractImageAndText_eq response]
  cases hL : ((firstCandidateParts response).filterMap ResponsePart.inlineData).getLast? <;> rfl

/-- A successful `generateHairstyleImage` outcome is a successful extraction
outcome (the blocked branch and the `catch` never produce a success). -/
theorem generate_ok_extract (response : GenerateContentResponse) (res : GeneratedResult)
    (h : generateHairstyleImage (.returned response) = .ok res) :
    extractImageAndText response = .ok res := by
  unfold generateHairstyleImage at h
  cases hb : generateHairstyleImageBody (.returned response) with
  | ok x =>
    rw [hb] at h
    dsimp only at h
    injection h with h
    subst h
    unfold generateHairstyleImageBody at hb
    dsimp only at hb
    cases hr : blockReasonOf response with
    | none => rw [hr] at hb; exact hb
    | some reason =>
      rw [hr] at hb
      dsimp only at hb
      by_cases hre : reason = ""
      · rw [if_pos hre] at hb; exact hb
      · rw [if_neg hre] at hb; exact absurd hb (by simp)
  | error e =>
    rw [hb] at h
    dsimp only at h
    split at h <;> exact absurd h (by simp)

/-- Settle events never change `appState`. -/
theorem runTrace_settles_appState (l : List Nat) (f : Nat → String)
    (g : Nat → Except String String) :
    ∀ st : OrchState,
      (runTrace st (l.map (fun i => OrchEvent.settle (f i) (g i)))).appState = st.appState := by
  induction l with
  | nil => intro st; rfl
  | cons i t ih =>
    intro st
    rw [List.map_cons]
    show (runTrace (orchStep st (.settle (f i) (g i))) _).appState = _
    rw [ih]
    unfold orchStep applySettled
    cases g i <;> rfl

/-! ## Claim theorems -/

/-- C3: for every raw analysis response whose text is absent, empty,
whitespace-only, or the literal token `null` in any letter case,
`analyzeFaceShape` fails with the specific empty-response error and never
returns a (partial) result. -/
theorem c3_empty_response (text : Option String) (parse : String → ParseResult)
    (h : text = none ∨
      ∃ s, text = some s ∧ (s = "" ∨ jsTrim s = "" ∨ jsToLowerCase (jsTrim s) = "null")) :
    analyzeFaceShape (.returned ⟨text⟩) parse = .error (jsError emptyResponseMsg) := by
  have hbody : analyzeFaceShapeBody (.returned ⟨text⟩) parse = .error (jsError emptyResponseMsg) := by
    rcases h with rfl | ⟨s, rfl, hs⟩
    · rfl
    · unfold analyzeFaceShapeBody
      dsimp only
      rw [if_pos hs]
  unfold analyzeFaceShape
  rw [hbody]
  rfl

/-- C3 witness: a whitespace-padded upper-case `NULL` response is rejected
with the empty-response error. -/
theorem c3_empty_response_witness :
    analyzeFaceShape (.returned ⟨some "  NULL "⟩) (fun _ => .nonObjectOrNull)
      = .error (jsError emptyResponseMsg) :=
  c3_empty_response (some "  NULL ") (fun _ => .nonObjectOrNull)
    (Or.inr ⟨"  NULL ", rfl, Or.inr (Or.inr (by rfl))⟩)

/-- C4: a raw response that passes the emptiness check but decodes to a value
missing `faceShape` or missing `hairstyles` always fails with the specific
malformed-response error. -/
theorem c4_malformed_response (s : String) (parse : String → ParseResult)
    (result : DecodedAnalysis)
    (hne : ¬(s = "" ∨ jsTrim s = "" ∨ jsToLowerCase (jsTrim s) = "null"))
    (hparse : parse s = .object result)
    (hmissing : result.faceShape = none ∨ result.hairstyles = none) :
    analyzeFaceShape (.returned ⟨some s⟩) parse = .error (jsError malformedResponseMsg) := by
  have hcheck : (jsFalsyStr result.faceShape || result.hairstyles.isNone) = true := by
    rcases hmissing with h | h <;> simp [jsFalsyStr, h]
  have hbody : analyzeFaceShapeBody (.returned ⟨some s⟩) parse
      = .error (jsError malformedResponseMsg) := by
    unfold analyzeFaceShapeBody
    dsimp only
    rw [if_neg hne, hparse]
    dsimp only
    rw [if_pos hcheck]
  unfold analyzeFaceShape
  rw [hbody]
  rfl

/-- C4 witness: an object with only `originalHairLength` is rejected as
malformed. -/
theorem c4_malformed_response_witness :
    analyzeFaceShape (.returned ⟨some "\x7b\x7d"⟩)
      (fun _ => .object ⟨none, some "Panjang", none⟩)
      = .error (jsError malformedResponseMsg) :=
  c4_malformed_response "\x7b\x7d" _ ⟨none, some "Panjang", none⟩
    (by decide) rfl (Or.inl rfl)

/-- C5 counterexample: a transport/service failure — the remote call itself
threw an `Error` that is neither of the two validation errors — whose message
happens to contain the marker text `AI mengembalikan` is re-thrown unchanged
instead of being wrapped into the generic `AnalysisFailedError`. -/
theorem c5_counterexample :
    analyzeFaceShape (.threw ⟨true, "AI mengembalikan respons aneh dari server proxy"⟩)
      (fun _ => .nonObjectOrNull)
      = .error ⟨true, "AI mengembalikan respons aneh dari server proxy"⟩
    ∧ (⟨true, "AI mengembalikan respons aneh dari server proxy"⟩ : JsThrown)
        ≠ jsError analysisFailedMsg := by
  exact ⟨rfl, by decide⟩

/-- C5 (amended): a failure of the analysis pipeline — the remote call
throwing, or `JSON.parse` throwing on a non-empty non-null raw response — is
wrapped into the generic analysis failure exactly when the thrown value is
not an `Error` instance whose message contains `AI mengembalikan`; a thrown
value carrying that marker (which includes the two validation errors)
propagates unchanged. -/
theorem c5_error_wrapping :
    (∀ (t : JsThrown) (parse : String → ParseResult),
      analyzeFaceShape (.threw t) parse =
        .error (if t.isError && hasSubstring t.message "AI mengembalikan" then t
                else jsError analysisFailedMsg))
    ∧ (∀ (s : String) (t : JsThrown) (parse : String → ParseResult),
      ¬(s = "" ∨ jsTrim s = "" ∨ jsToLowerCase (jsTrim s) = "null") →
      parse s = .threw t →
      analyzeFaceShape (.returned ⟨some s⟩) parse =
        .error (if t.isError && hasSubstring t.message "AI mengembalikan" then t
                else jsError analysisFailedMsg)) := by
  constructor
  · intro t parse
    unfold analyzeFaceShape analyzeFaceShapeBody
    dsimp only
    cases h : (t.isError && hasSubstring t.message "AI mengembalikan") <;> simp [h]
  · intro s t parse hne hp
    have hbody : analyzeFaceShapeBody (.returned ⟨some s⟩) parse = .error t := by
      unfold analyzeFaceShapeBody
      dsimp only
      rw [if_neg hne, hp]
    unfold analyzeFaceShape
    rw [hbody]
    cases h : (t.isError && hasSubstring t.message "AI mengembalikan") <;> simp [h]

/-- C5 witness: a non-`Error` throw and a `JSON.parse` failure on the raw
text `{` are both surfaced as the generic analysis failure. -/
theorem c5_error_wrapping_witness :
    analyzeFaceShape (.threw ⟨false, "boom"⟩) (fun _ => .nonObjectOrNull)
      = .error (jsError analysisFailedMsg)
    ∧ analyzeFaceShape (.returned ⟨some "\x7b"⟩)
        (fun _ => .threw ⟨true, "Unexpected end of JSON input"⟩)
        = .error (jsError analysisFailedMsg) := by
  constructor
  · exact (c5_error_wrapping.1 ⟨false, "boom"⟩ (fun _ => .nonObjectOrNull)).trans (by rfl)
  · exact (c5_error_wrapping.2 "\x7b" ⟨true, "Unexpected end of JSON input"⟩
      (fun _ => .threw ⟨true, "Unexpected end of JSON input"⟩) (by decide) rfl).trans (by rfl)

/-- C6 counterexample: a raw response decoding to an object whose
`hairstyles` field is present but an empty array passes validation (an empty
array is truthy in JavaScript), so `analyzeFaceShape` succeeds with an empty
hairstyles sequence. -/
theorem c6_counterexample :
    analyzeFaceShape
      (.returned ⟨some "\x7b\"faceShape\": \"Oval\", \"originalHairLength\": \"Panjang\", \"hairstyles\": []\x7d"⟩)
      (fun _ => .object ⟨some "Oval", some "Panjang", some []⟩)
      = .ok ⟨some "Oval", some "Panjang", some []⟩
    ∧ (⟨some "Oval", some "Panjang", some []⟩ : DecodedAnalysis).hairstyles
        = some ([] : List HairstyleSuggestion) := by
  exact ⟨rfl, rfl⟩

/-- C6 (amended): every successful return of `analyzeFaceShape` has a
*present* `hairstyles` field — the validation checks presence, not
non-emptiness, so the sequence may be empty. -/
theorem c6_hairstyles_present (svc : ServiceCallResult AnalyzeResponse)
    (parse : String → ParseResult) (result : DecodedAnalysis)
    (h : analyzeFaceShape svc parse = .ok result) :
    result.hairstyles.isSome = true := by
  have hbody : analyzeFaceShapeBody svc parse = .ok result := by
    unfold analyzeFaceShape at h
    cases hb : analyzeFaceShapeBody svc parse with
    | ok r =>
      rw [hb] at h
      dsimp only at h
      injection h with h
      subst h
      rfl
    | error e =>
      rw [hb] at h
      dsimp only at h
      split at h <;> exact absurd h (by simp)
  unfold analyzeFaceShapeBody at hbody
  cases svc with
  | threw t => exact absurd hbody (by simp)
  | returned response =>
    obtain ⟨text⟩ := response
    cases text with
    | none => exact absurd hbody (by simp)
    | some s =>
      dsimp only at hbody
      split at hbody
      · exact absurd hbody (by simp)
      · cases hp : parse s with
        | threw t => rw [hp] at hbody; exact absurd hbody (by simp)
        | nonObjectOrNull => rw [hp] at hbody; exact absurd hbody (by simp)
        | object d =>
          rw [hp] at hbody
          dsimp only at hbody
          split at hbody
          · exact absurd hbody (by simp)
          · rename_i hcond
            injection hbody with hbody
            subst hbody
            cases hd : d.hairstyles with
            | none => rw [hd] at hcond; simp at hcond
            | some l => rfl

/-- C7: a generation response reporting a policy block (a present, non-empty
`promptFeedback.blockReason`) makes `generateHairstyleImage` fail with the
blocked-request error whose message carries the reported reason; no image
result is returned. -/
theorem c7_blocked_request (response : GenerateContentResponse) (reason : String)
    (hr : blockReasonOf response = some reason) (hne : reason ≠ "") :
    generateHairstyleImage (.returned response) = .error (jsError (blockedMessage reason))
    ∧ ContainsStr (blockedMessage reason) reason := by
  constructor
  · have hbody : generateHairstyleImageBody (.returned response)
        = .error (jsError (blockedMessage reason)) := by
      unfold generateHairstyleImageBody
      dsimp only
      rw [hr]
      dsimp only
      rw [if_neg hne]
    unfold generateHairstyleImage
    rw [hbody]
    rfl
  · exact ⟨"Gagal membuat gambar karena permintaan diblokir: ",
      ". Coba gaya atau foto lain.", rfl⟩

/-- C7 witness: a response blocked with reason `SAFETY`. -/
theorem c7_blocked_request_witness :
    generateHairstyleImage (.returned ⟨some ⟨some "SAFETY"⟩, some []⟩)
      = .error (jsError (blockedMessage "SAFETY")) :=
  (c7_blocked_request ⟨some ⟨some "SAFETY"⟩, some []⟩ "SAFETY" rfl (by decide)).1

/-- All content parts of all candidates of a generation response. -/
def allResponseParts (response : GenerateContentResponse) : List ResponsePart :=
  ((response.candidates.getD []).map (fun c => c.content.parts)).flatten

/-- C8 counterexample: a non-blocked response whose only inline image payload
sits in the *second* candidate fails with the no-image error even though an
image payload is present among the returned content parts — the scan covers
only the first candidate. -/
theorem c8_counterexample :
    generateHairstyleImage (.returned
      ⟨none, some [⟨⟨[⟨none, some "tanpa gambar"⟩]⟩⟩, ⟨⟨[⟨some ⟨"abc", "image/png"⟩, none⟩]⟩⟩]⟩)
      = .error (jsError noImageProducedMsg)
    ∧ (allResponseParts
        ⟨none, some [⟨⟨[⟨none, some "tanpa gambar"⟩]⟩⟩, ⟨⟨[⟨some ⟨"abc", "image/png"⟩, none⟩]⟩⟩]⟩).filterMap
        ResponsePart.inlineData
        = [⟨"abc", "image/png"⟩] := by
  exact ⟨rfl, rfl⟩

/-- C8 (amended): on a non-blocked response, `generateHairstyleImage` fails
with the no-image error exactly when no inline image payload occurs among the
*first candidate's* content parts (in particular when the candidates list is
empty or absent); when such a payload is found, its data URL is returned as
the result image. -/
theorem c8_no_image (response : GenerateContentResponse)
    (hnb : blockReasonOf response = none ∨ blockReasonOf response = some "") :
    (((firstCandidateParts response).filterMap ResponsePart.inlineData).getLast? = none →
      generateHairstyleImage (.returned response) = .error (jsError noImageProducedMsg))
    ∧ (∀ d, ((firstCandidateParts response).filterMap ResponsePart.inlineData).getLast? = some d →
      ∃ caption, generateHairstyleImage (.returned response) = .ok ⟨mkDataUrl d, caption⟩) := by
  have hgen := generate_eq_extract response hnb
  have hext := extractImageAndText_eq response
  constructor
  · intro hnone
    rw [hnone] at hext
    rw [hgen, hext]
  · intro d hd
    rw [hd] at hext
    exact ⟨(scanParts (firstCandidateParts response)).2, by rw [hgen, hext]⟩

/-- C8 witness: an absent candidates list yields the no-image error, and a
single-candidate response with one inline payload yields that payload's data
URL. -/
theorem c8_no_image_witness :
    generateHairstyleImage (.returned ⟨none, none⟩) = .error (jsError noImageProducedMsg)
    ∧ ∃ caption, generateHairstyleImage
        (.returned ⟨none, some [⟨⟨[⟨some ⟨"abc", "image/png"⟩, none⟩]⟩⟩]⟩)
        = .ok ⟨mkDataUrl ⟨"abc", "image/png"⟩, caption⟩ := by
  constructor
  · exact (c8_no_image ⟨none, none⟩ (Or.inl rfl)).1 rfl
  · exact (c8_no_image ⟨none, some [⟨⟨[⟨some ⟨"abc", "image/png"⟩, none⟩]⟩⟩]⟩ (Or.inl rfl)).2
      ⟨"abc", "image/png"⟩ rfl

/-- C10: on a response with a non-empty candidates list, any image returned
by `generateHairstyleImage` is exactly the data URL of the *last* inline
image part of the *first* candidate (later image parts overwrite earlier
ones), and parts of the second and following candidates never influence the
outcome. -/
theorem c10_last_image_first_candidate (pf : Option PromptFeedback) (c : Candidate)
    (rest rest' : List Candidate) :
    (∀ res : GeneratedResult,
      generateHairstyleImage (.returned ⟨pf, some (c :: rest)⟩) = .ok res →
      ((c.content.parts.filterMap ResponsePart.inlineData).getLast?).map mkDataUrl
        = some res.imageUrl)
    ∧ generateHairstyleImage (.returned ⟨pf, some (c :: rest)⟩)
        = generateHairstyleImage (.returned ⟨pf, some (c :: rest')⟩) := by
  constructor
  · intro res h
    have hext := generate_ok_extract _ res h
    rw [extractImageAndText_eq] at hext
    have hfc : firstCandidateParts ⟨pf, some (c :: rest)⟩ = c.content.parts := rfl
    rw [hfc] at hext
    cases hL : (c.content.parts.filterMap ResponsePart.inlineData).getLast? with
    | none => rw [hL] at hext; exact absurd hext (by simp)
    | some d =>
      rw [hL] at hext
      dsimp only at hext
      injection hext with hext
      rw [← hext]
      rfl
  · have hsame : blockReasonOf ⟨pf, some (c :: rest)⟩
        = blockReasonOf ⟨pf, some (c :: rest')⟩ := rfl
    have hext : extractImageAndText ⟨pf, some (c :: rest)⟩
        = extractImageAndText ⟨pf, some (c :: rest')⟩ := rfl
    unfold generateHairstyleImage generateHairstyleImageBody
    dsimp only
    rw [hsame, hext]

/-- C10 witness: with two image parts in the first candidate and another in
the second candidate, the returned image is the first candidate's second
(last) payload. -/
theorem c10_witness :
    ((((⟨⟨[⟨some ⟨"a", "image/png"⟩, none⟩, ⟨some ⟨"b", "image/jpeg"⟩, none⟩]⟩⟩ : Candidate).content.parts.filterMap
        ResponsePart.inlineData).getLast?).map mkDataUrl)
      = some (mkDataUrl ⟨"b", "image/jpeg"⟩) :=
  (c10_last_image_first_candidate none
      ⟨⟨[⟨some ⟨"a", "image/png"⟩, none⟩, ⟨some ⟨"b", "image/jpeg"⟩, none⟩]⟩⟩
      [⟨⟨[⟨some ⟨"zzz", "image/png"⟩, none⟩]⟩⟩] []).1
    ⟨mkDataUrl ⟨"b", "image/jpeg"⟩, defaultGeneratedText⟩ (by rfl)

/-- C9 counterexample: the cut-severity lookup is *not* exhaustive over the
declared `HaircutPreference` union: the member `"Rapikan"` has no entry, and
the prompt built for it interpolates the string `undefined`. -/
theorem c9_counterexample :
    jsIndexStr preferenceDefinitions (HaircutPreference.toKey HaircutPreference.Rapikan) = none
    ∧ hasSubstring
        (buildGenerationPrompt "Bob" (HaircutPreference.toKey HaircutPreference.Rapikan))
        "undefined" = true := by
  refine ⟨rfl, ?_⟩
  set_option maxRecDepth 100000 in decide

/-- C9 (amended): the cut-severity lookup is exhaustive over the UI's
selection list — every preference value the UI offers has a defined severity
description — though not over the declared `HaircutPreference` type. -/
theorem c9_ui_lookup_exhaustive (opt : PreferenceOption) (h : opt ∈ haircutPreferences) :
    (jsIndexStr preferenceDefinitions opt.value).isSome = true := by
  simp only [haircutPreferences, List.mem_cons, List.not_mem_nil, or_false] at h
  rcases h with rfl | rfl | rfl <;> rfl

/-- C9 witness: the UI option `"Super Pendek"` has a defined severity
description. -/
theorem c9_ui_lookup_exhaustive_witness :
    (jsIndexStr preferenceDefinitions
      (⟨"Super Pendek", "Potongan Super Pendek"⟩ : PreferenceOption).value).isSome = true :=
  c9_ui_lookup_exhaustive ⟨"Super Pendek", "Potongan Super Pendek"⟩ (by decide)

/-- C1: selecting a cut preference issues exactly one generation call per
suggested hairstyle — each carrying the common image payload, the analysis's
`originalHairLength` and the selected preference — `appState` stays
`GENERATING` after the selection and after any number of settlements, and
once all calls have settled (in any order, with any mix of successes and
failures) the `finish` step unconditionally reaches `COMPLETE`. -/
theorem c1_generation_fanout
    (st0 : OrchState) (img : OriginalImage) (a : AnalysisResult) (preference : String)
    (order : List Nat) (outs : Nat → Except String String)
    (himg : st0.originalImage = some img)
    (hana : st0.analysisResult = some a)
    (hgen : st0.appState ≠ AppState.GENERATING)
    (hperm : order.Perm (List.range a.hairstyles.length)) :
    (generationCalls img a preference).length = a.hairstyles.length
    ∧ (generationCalls img a preference).map GenerationCall.hairstyleName
        = a.hairstyles.map HairstyleSuggestion.name
    ∧ (∀ call ∈ generationCalls img a preference,
        call.base64 = img.base64 ∧ call.mimeType = img.mimeType
          ∧ call.originalHairLength = a.originalHairLength
          ∧ call.haircutPreference = preference)
    ∧ (runTrace st0 [.select preference]).issued
        = st0.issued ++ generationCalls img a preference
    ∧ order.length = a.hairstyles.length
    ∧ (∀ k, k ≤ order.length →
        (runTrace st0 (.select preference ::
          (order.take k).map (fun i => OrchEvent.settle (hairstyleNameAt a i) (outs i)))).appState
          = AppState.GENERATING)
    ∧ (runTrace st0 (.select preference ::
        (order.map (fun i => OrchEvent.settle (hairstyleNameAt a i) (outs i))
          ++ [OrchEvent.finish]))).appState = AppState.COMPLETE := by
  have hsel : orchStep st0 (.select preference)
      = { st0 with
          haircutPreference := some preference,
          appState := .GENERATING,
          generatedImages := initialImageStates a.hairstyles,
          issued := st0.issued ++ generationCalls img a preference } := by
    unfold orchStep handlePreferenceSelectStart
    rw [himg, hana]
    dsimp only
    rw [if_neg hgen]
  refine ⟨?_, ?_, ?_, ?_, ?_, ?_, ?_⟩
  · simp [generationCalls]
  · simp only [generationCalls, List.map_map]
    rfl
  · intro call hc
    simp only [generationCalls, List.mem_map] at hc
    obtain ⟨style, hs, rfl⟩ := hc
    exact ⟨rfl, rfl, rfl, rfl⟩
  · show (orchStep st0 (.select preference)).issued = _
    rw [hsel]
  · simpa using hperm.length_eq
  · intro k hk
    show (runTrace (orchStep st0 (.select preference))
      ((order.take k).map (fun i => OrchEvent.settle (hairstyleNameAt a i) (outs i)))).appState = _
    rw [runTrace_settles_appState (order.take k) (fun i => hairstyleNameAt a i) outs
      (orchStep st0 (.select preference)), hsel]
  · show (runTrace (orchStep st0 (.select preference))
      ((order.map (fun i => OrchEvent.settle (hairstyleNameAt a i) (outs i)))
        ++ [OrchEvent.finish])).appState = _
    unfold runTrace
    rw [List.foldl_append]
    rfl

/-- C1 witness: a three-hairstyle analysis, settle order 2-0-1 with one
failure, ends in `COMPLETE`. -/
theorem c1_generation_fanout_witness :
    (generationCalls ⟨"blob:u", "QUJD", "image/png"⟩
      ⟨"Oval", "Panjang", [⟨"Bob", "d1"⟩, ⟨"Pixie", "d2"⟩, ⟨"Layers", "d3"⟩]⟩ "Pendek").length = 3
    ∧ (runTrace
        ⟨.ANALYZED, some ⟨"blob:u", "QUJD", "image/png"⟩,
          some ⟨"Oval", "Panjang", [⟨"Bob", "d1"⟩, ⟨"Pixie", "d2"⟩, ⟨"Layers", "d3"⟩]⟩,
          none, [], none, []⟩
        (.select "Pendek" ::
          ([2, 0, 1].map (fun i => OrchEvent.settle
            (hairstyleNameAt ⟨"Oval", "Panjang", [⟨"Bob", "d1"⟩, ⟨"Pixie", "d2"⟩, ⟨"Layers", "d3"⟩]⟩ i)
            (if i = 1 then Except.error "Gagal" else Except.ok "data:image/png;base64,xyz"))
            ++ [OrchEvent.finish]))).appState = AppState.COMPLETE := by
  have h := c1_generation_fanout
    ⟨.ANALYZED, some ⟨"blob:u", "QUJD", "image/png"⟩,
      some ⟨"Oval", "Panjang", [⟨"Bob", "d1"⟩, ⟨"Pixie", "d2"⟩, ⟨"Layers", "d3"⟩]⟩,
      none, [], none, []⟩
    ⟨"blob:u", "QUJD", "image/png"⟩
    ⟨"Oval", "Panjang", [⟨"Bob", "d1"⟩, ⟨"Pixie", "d2"⟩, ⟨"Layers", "d3"⟩]⟩
    "Pendek" [2, 0, 1]
    (fun i => if i = 1 then Except.error "Gagal" else Except.ok "data:image/png;base64,xyz")
    rfl rfl (by decide) (by decide)
  exact ⟨h.1, h.2.2.2.2.2.2⟩

/-- The state from which the C2 reset scenario starts: analysis done, one
suggested hairstyle, nothing generated yet. -/
def staleRunStart : OrchState :=
  ⟨.ANALYZED, some ⟨"blob:selfie", "QUJD", "image/png"⟩,
    some ⟨"Oval", "Panjang", [⟨"Bob", "cocok untuk wajah oval"⟩]⟩,
    none, [], none, []⟩

/-- The C2 scenario: a preference is selected, the user resets while the one
generation call is still in flight, the call then settles successfully, and
the stale `handlePreferenceSelect` invocation resumes after its
`Promise.allSettled` barrier. -/
def staleRunEvents : List OrchEvent :=
  [.select "Pendek", .reset,
   .settle "Bob" (.ok "data:image/png;base64,xyz"), .finish]

/-- C2: evaluating the code on the reset-during-generation scenario.  After
the reset the outcome mapping is empty and the state is `INITIAL`; yet the
late-arriving result of the discarded run is written into the post-reset
mapping (the settle handler updates whatever state is current, with no run
tag), and the stale invocation then drives the state to `COMPLETE`. -/
theorem c2_stale_write_eval :
    (runTrace staleRunStart [.select "Pendek", .reset]).generatedImages = []
    ∧ (runTrace staleRunStart [.select "Pendek", .reset]).appState = AppState.INITIAL
    ∧ (runTrace staleRunStart staleRunEvents).generatedImages
        = [("Bob", ⟨some "data:image/png;base64,xyz", none, false⟩)]
    ∧ (runTrace staleRunStart staleRunEvents).appState = AppState.COMPLETE := by
  exact ⟨rfl, rfl, rfl, rfl⟩

/-- C6 witness: a well-formed decoded analysis is returned with its
`hairstyles` field present. -/
theorem c6_hairstyles_present_witness :
    (⟨some "Oval", some "Panjang", some [⟨"Bob", "d"⟩]⟩ : DecodedAnalysis).hairstyles.isSome
      = true :=
  c6_hairstyles_present (.returned ⟨some "respons"⟩)
    (fun _ => .object ⟨some "Oval", some "Panjang", some [⟨"Bob", "d"⟩]⟩)
    ⟨some "Oval", some "Panjang", some [⟨"Bob", "d"⟩]⟩ (by rfl)
